import Mathlib

/-!
Shallow embedding of `hyperwallet/api.py` (the `Api` class of the Hyperwallet
python SDK) and proofs about its pagination accumulator, program-token
injection, endpoint validation and response wrapping.

Conventions of the embedding:

* Python values that can flow through the code generically are modelled by
  `PyVal` (strings, integers, dictionaries as association lists in insertion
  order, lists).
* A raised Python exception is modelled by `Except PyErr`; `PyErr` separates
  the library's own `HyperwalletException` from builtin `TypeError`,
  `NameError` and `AttributeError`.
* Python truthiness (`not x`) on optional strings / dicts / generic values is
  modelled by the `...Falsy` helpers: `None`, the empty string, the empty
  dict and the empty list are falsy.
* The HTTP transport (`utils.ApiClient`) is an external collaborator; it is
  modelled by an `ApiClient` structure of pure functions.  Every facade
  operation returns, next to its `Except` result, the list of transport
  calls it issued, so that "no network call is attempted" is a statement
  about an empty trace.
* The `while True` loop of `Api._getCollection` is modelled with explicit
  fuel: the loop function returns `none` when the fuel is exhausted, and the
  theorems supply enough fuel for the loop to reach its `break`.
-/

set_option maxHeartbeats 1000000
set_option maxRecDepth 40000

namespace HyperwalletApi

/-- A decoded JSON-like Python value as it flows through `api.py`. -/
inductive PyVal where
  | str : String → PyVal
  | int : Int → PyVal
  | dict : List (String × PyVal) → PyVal
  | list : List PyVal → PyVal

/-- A raised Python exception: the library's `HyperwalletException` or one of
the builtin exception types that `api.py` can trigger. -/
inductive PyErr where
  | hwException : String → PyErr
  | nameError : String → PyErr
  | typeError : String → PyErr
  | attributeError : String → PyErr
deriving DecidableEq

/-- Python truthiness of a `PyVal` (`bool(x)`). -/
def pyTruthy : PyVal → Bool
  | .str s => !s.isEmpty
  | .int n => n != 0
  | .dict kvs => !kvs.isEmpty
  | .list xs => !xs.isEmpty

/-- `not x` for an optional generic value: `None` or a falsy value. -/
def optFalsy : Option PyVal → Bool
  | none => true
  | some v => !pyTruthy v

/-- `not token` for an optional string argument: `None` or the empty string. -/
def strFalsy : Option String → Bool
  | none => true
  | some s => s.isEmpty

/-- `not data` for an optional dictionary argument: `None` or the empty dict. -/
def dictFalsy : Option (List (String × PyVal)) → Bool
  | none => true
  | some d => d.isEmpty

/-- The resource constructors imported at the top of `api.py` (lines 9-15):
`from hyperwallet import (User, BankAccount, PrepaidCard, PaperCheck,
Webhook)`.  Any other name used as a constructor is unbound in the module
and raises `NameError` when evaluated. -/
def importedResourceNames : List String :=
  ["User", "BankAccount", "PrepaidCard", "PaperCheck", "Webhook"]

/-- A wrapped API response: one of the plain data-holding resource classes,
tagged with the class name it was built with. -/
structure Resource where
  kind : String
  body : PyVal

/-- Evaluate `Kind(body)` in the module: succeeds iff `Kind` is one of the
imported resource constructors, otherwise raises `NameError`. -/
def wrapResource (kind : String) (body : PyVal) : Except PyErr Resource :=
  if kind ∈ importedResourceNames then .ok ⟨kind, body⟩
  else .error (.nameError kind)

/-- `[Kind(x) for x in items]`: the constructor name is resolved for each
element, so an empty list succeeds even for an unbound name. -/
def wrapList (kind : String) (items : List PyVal) : Except PyErr (List Resource) :=
  items.mapM (wrapResource kind)

/-- `response.get('data', [])` followed by iteration: an absent `data` key is
an empty sequence. -/
def dictGetData (v : PyVal) : List PyVal :=
  match v with
  | .dict kvs =>
    match kvs.lookup "data" with
    | some (.list xs) => xs
    | _ => []
  | _ => []

/-- `os.path.join(...)` as used by `api.py`: all segments are relative string
literals or tokens, joined with `/`; a non-`str` segment raises `TypeError`. -/
def osPathJoinPy (segs : List PyVal) : Except PyErr String := do
  let parts ← segs.mapM fun v =>
    match v with
    | .str s => Except.ok s
    | _ => Except.error (.typeError "join: expected str instance")
  return String.intercalate "/" parts

/-- `os.path.join` on segments that are statically strings. -/
def joinPath (segs : List String) : String :=
  String.intercalate "/" segs

/-- `Api._addProgramToken` (api.py lines 62-80): non-dicts are rejected, an
existing `programToken` key is kept (presence check, value ignored),
otherwise the configured program token is inserted. -/
def addProgramToken (programToken : PyVal) (data : PyVal) : Except PyErr PyVal :=
  match data with
  | .dict kvs =>
    if (kvs.lookup "programToken").isSome then .ok (.dict kvs)
    else .ok (.dict (kvs ++ [("programToken", programToken)]))
  | _ => .error (.hwException "data must be a dictionary object")

/-- One invocation of the page-fetch function by the accumulator: the
`{'offset': offset, 'limit': chunksize}` dictionary it passes. -/
structure PageCall where
  offset : Nat
  limit : Nat
deriving DecidableEq

/-- The two keys `Api._getCollection` reads from its `params` dictionary. -/
structure CollParams where
  offset : Option Nat := none
  maximum : Option Int := none

/-- The guard `maximum is not None and maximum < 1` (api.py line 102). -/
def maxBelowOne : Option Int → Bool
  | none => false
  | some m => decide (m < 1)

/-- Python slice `results[0:maximum]`: `None` keeps everything, a
non-negative stop takes a prefix, a negative stop counts from the end. -/
def pySlice (maximum : Option Int) (xs : List α) : List α :=
  match maximum with
  | none => xs
  | some m =>
    if 0 ≤ m then xs.take m.toNat
    else xs.take (xs.length - (-m).toNat)

/-- The `while True` loop of `Api._getCollection` (api.py lines 108-120),
with explicit fuel.  Each iteration fetches one page of `chunksize = 100`
at the running offset, appends it to `results` and records the page call;
it breaks on a short page, or, when `maximum` is truthy, once the
accumulated results reach `maximum`.  A failure of the fetch function
propagates unchanged.  `none` means the fuel ran out before a break. -/
def getCollectionLoop (func : PageCall → Except PyErr (List α)) (maximum : Option Int) :
    Nat → Nat → List α → List PageCall → Option (Except PyErr (List α × List PageCall))
  | 0, _, _, _ => none
  | fuel + 1, offset, results, calls =>
    match func ⟨offset, 100⟩ with
    | .error e => some (.error e)
    | .ok response =>
      let results := results ++ response
      let calls := calls ++ [⟨offset, 100⟩]
      if response.length < 100 then some (.ok (results, calls))
      else
        match maximum with
        | some m =>
          if m ≠ 0 ∧ m ≤ (results.length : Int) then some (.ok (results, calls))
          else getCollectionLoop func maximum fuel (offset + 100) results calls
        | none => getCollectionLoop func maximum fuel (offset + 100) results calls

/-- `Api._getCollection` (api.py lines 82-122).  A `None` params raises
`AttributeError` at `params.get('offset')`; a maximum below one returns the
empty collection without calling the fetch function; otherwise the loop
runs and the accumulated results are sliced to `results[0:maximum]`. -/
def getCollection (func : PageCall → Except PyErr (List α)) (params : Option CollParams)
    (fuel : Nat) : Option (Except PyErr (List α × List PageCall)) :=
  match params with
  | none => some (.error (.attributeError "NoneType object has no attribute get"))
  | some p =>
    let offset := p.offset.getD 0
    let maximum := p.maximum
    if maxBelowOne maximum then some (.ok ([], []))
    else
      (getCollectionLoop func maximum fuel offset [] []).map
        (Except.map fun rc => (pySlice maximum rc.1, rc.2))

/-- A page-fetch function backed by a dataset indexed from zero: the fetch at
`(offset, limit)` returns `ds[offset : offset + limit]`. -/
def pageFetch (ds : List α) (p : PageCall) : List α :=
  (ds.drop p.offset).take p.limit

/-- The page calls `⟨offset, 100⟩, ⟨offset + 100, 100⟩, ...` (`k` of them). -/
def pageCalls (offset k : Nat) : List PageCall :=
  (List.range k).map fun i => ⟨offset + 100 * i, 100⟩

/-- The external HTTP transport (`utils.ApiClient`), as consumed by `Api`:
`doGet(path, params)`, `doPost(path, data, headers)`, `doPut(path, data)`.
Every function either returns the decoded response mapping or raises. -/
structure ApiClient where
  doGet : String → Option PyVal → Except PyErr PyVal
  doPost : String → PyVal → Option (List (String × String)) → Except PyErr PyVal
  doPut : String → PyVal → Except PyErr PyVal

/-- One recorded transport invocation. -/
inductive TCall where
  | get : String → Option PyVal → TCall
  | post : String → PyVal → Option (List (String × String)) → TCall
  | put : String → PyVal → TCall

/-- `Api.listUsers` (api.py lines 140-153): `doGet('users', params)`, then
each element of the response's `data` is wrapped as a `User`. -/
def listUsers (client : ApiClient) (params : Option PyVal) :
    Except PyErr (List Resource) × List TCall :=
  match client.doGet "users" params with
  | .error e => (.error e, [.get "users" params])
  | .ok response => (wrapList "User" (dictGetData response), [.get "users" params])

/-- The `{'offset': offset, 'limit': chunksize}` dictionary built by the
accumulator's loop body (api.py line 109). -/
def pageDict (p : PageCall) : PyVal :=
  .dict [("offset", .int p.offset), ("limit", .int p.limit)]

/-- `Api.getUsers` (api.py lines 124-138): `_getCollection(self.listUsers,
params)`.  The accumulator calls `func` with the page dictionary as the one
positional argument, which binds to `listUsers`' first parameter `params`. -/
def getUsers (client : ApiClient) (params : Option CollParams) (fuel : Nat) :
    Option (Except PyErr (List Resource × List PageCall)) :=
  getCollection (fun p => (listUsers client (some (pageDict p))).1) params fuel

/-- `Api.createUser` (api.py lines 155-173): a falsy `data` raises before any
transport call; otherwise the program token is injected and the payload is
posted to `users`, and the response is wrapped as a `User`. -/
def createUser (client : ApiClient) (programToken : PyVal)
    (data : Option (List (String × PyVal))) : Except PyErr Resource × List TCall :=
  if dictFalsy data then (.error (.hwException "data is required"), [])
  else
    match addProgramToken programToken (.dict (data.getD [])) with
    | .error e => (.error e, [])
    | .ok payload =>
      match client.doPost "users" payload none with
      | .error e => (.error e, [.post "users" payload none])
      | .ok response => (wrapResource "User" response, [.post "users" payload none])

/-- `Api.retrieveUser` (api.py lines 175-193): a falsy `userToken` raises
before any transport call; otherwise `doGet(os.path.join('users',
userToken))` and the response is wrapped as a `User`. -/
def retrieveUser (client : ApiClient) (userToken : Option String) :
    Except PyErr Resource × List TCall :=
  if strFalsy userToken then (.error (.hwException "userToken is required"), [])
  else
    let path := joinPath ["users", userToken.getD ""]
    match client.doGet path none with
    | .error e => (.error e, [.get path none])
    | .ok response => (wrapResource "User" response, [.get path none])

/-- `Api.listBankAccounts` (api.py lines 277-299).  Its first parameter is
`userToken`; a falsy one raises, otherwise the token is spliced into the
path by `os.path.join` (raising `TypeError` if it is not a string) and the
response's `data` elements are wrapped as `BankAccount`s.  The parameter is
kept at type `PyVal` because `Api.getBankAccounts` passes a dictionary
here. -/
def listBankAccounts (client : ApiClient) (userToken : Option PyVal)
    (params : Option PyVal) : Except PyErr (List Resource) × List TCall :=
  if optFalsy userToken then (.error (.hwException "userToken is required"), [])
  else
    match osPathJoinPy [.str "users", userToken.getD (.str ""), .str "bank-accounts"] with
    | .error e => (.error e, [])
    | .ok path =>
      match client.doGet path params with
      | .error e => (.error e, [.get path params])
      | .ok response => (wrapList "BankAccount" (dictGetData response), [.get path params])

/-- `Api.getBankAccounts` (api.py lines 260-275):
`_getCollection(self.listBankAccounts, params)`.  The accumulator calls
`func` with the page dictionary as its single positional argument, which
binds to `listBankAccounts`' first parameter `userToken`; the `params`
parameter of `listBankAccounts` keeps its default `None`. -/
def getBankAccounts (client : ApiClient) (params : Option CollParams) (fuel : Nat) :
    Option (Except PyErr (List Resource × List PageCall)) :=
  getCollection (fun p => (listBankAccounts client (some (pageDict p)) none).1) params fuel

/-- `Api.updateBankAccount` (api.py lines 354-390): `userToken`,
`bankAccountToken` and `data` are checked falsy in that order, each raising
before any transport call; then `doPut` on the assembled path and the
response is wrapped as a `BankAccount`. -/
def updateBankAccount (client : ApiClient) (userToken bankAccountToken : Option String)
    (data : Option (List (String × PyVal))) : Except PyErr Resource × List TCall :=
  if strFalsy userToken then (.error (.hwException "userToken is required"), [])
  else if strFalsy bankAccountToken then
    (.error (.hwException "bankAccountToken is required"), [])
  else if dictFalsy data then (.error (.hwException "data is required"), [])
  else
    let path := joinPath
      ["users", userToken.getD "", "bank-accounts", bankAccountToken.getD ""]
    let body := PyVal.dict (data.getD [])
    match client.doPut path body with
    | .error e => (.error e, [.put path body])
    | .ok response => (wrapResource "BankAccount" response, [.put path body])

/-- `Api.listPayments` (api.py lines 935-948): `doGet('payments', params)`,
then each element of `data` is wrapped by the (unimported) `Payment`
constructor. -/
def listPayments (client : ApiClient) (params : Option PyVal) :
    Except PyErr (List Resource) × List TCall :=
  match client.doGet "payments" params with
  | .error e => (.error e, [.get "payments" params])
  | .ok response => (wrapList "Payment" (dictGetData response), [.get "payments" params])

/-- `Api.getPayments` (api.py lines 918-933): `_getCollection(self.listPayments,
params)`; the page dictionary binds to `listPayments`' first parameter
`params`. -/
def getPayments (client : ApiClient) (params : Option CollParams) (fuel : Nat) :
    Option (Except PyErr (List Resource × List PageCall)) :=
  getCollection (fun p => (listPayments client (some (pageDict p))).1) params fuel

/-- `Api.createPayment` (api.py lines 950-968): a falsy `data` raises before
any transport call; otherwise the program token is injected, the payload is
posted to `payments`, and the response is wrapped by the (unimported)
`Payment` constructor. -/
def createPayment (client : ApiClient) (programToken : PyVal)
    (data : Option (List (String × PyVal))) : Except PyErr Resource × List TCall :=
  if dictFalsy data then (.error (.hwException "data is required"), [])
  else
    match addProgramToken programToken (.dict (data.getD [])) with
    | .error e => (.error e, [])
    | .ok payload =>
      match client.doPost "payments" payload none with
      | .error e => (.error e, [.post "payments" payload none])
      | .ok response => (wrapResource "Payment" response, [.post "payments" payload none])

/-- `Api.retrievePayment` (api.py lines 970-986): a falsy `paymentToken`
raises before any transport call; otherwise `doGet(os.path.join('payments',
paymentToken))` and the response is wrapped by the (unimported) `Payment`
constructor. -/
def retrievePayment (client : ApiClient) (paymentToken : Option String) :
    Except PyErr Resource × List TCall :=
  if strFalsy paymentToken then (.error (.hwException "paymentToken is required"), [])
  else
    let path := joinPath ["payments", paymentToken.getD ""]
    match client.doGet path none with
    | .error e => (.error e, [.get path none])
    | .ok response => (wrapResource "Payment" response, [.get path none])

/-- `Api.listTransferMethodConfigurations` (api.py lines 1083-1098): raises if
the key `userToken` is absent from `params` (presence only, the value is not
inspected), otherwise returns `doGet('transfer-method-configurations',
params)` unwrapped. -/
def listTransferMethodConfigurations (client : ApiClient)
    (params : List (String × PyVal)) : Except PyErr PyVal × List TCall :=
  if (params.lookup "userToken").isNone then
    (.error (.hwException "userToken is required"), [])
  else
    (client.doGet "transfer-method-configurations" (some (.dict params)),
     [.get "transfer-method-configurations" (some (.dict params))])

/-- `Api.retrieveTransferMethodConfiguration` (api.py lines 1100-1139): the
keys `userToken`, `country`, `currency`, `type`, `profileType` are checked
for presence in that order (values are not inspected), each raising before
any transport call; then `doGet('transfer-method-configurations', params)`
is returned unwrapped. -/
def retrieveTransferMethodConfiguration (client : ApiClient)
    (params : List (String × PyVal)) : Except PyErr PyVal × List TCall :=
  if (params.lookup "userToken").isNone then
    (.error (.hwException "userToken is required"), [])
  else if (params.lookup "country").isNone then
    (.error (.hwException "country is required"), [])
  else if (params.lookup "currency").isNone then
    (.error (.hwException "currency is required"), [])
  else if (params.lookup "type").isNone then
    (.error (.hwException "type is required"), [])
  else if (params.lookup "profileType").isNone then
    (.error (.hwException "profileType is required"), [])
  else
    (client.doGet "transfer-method-configurations" (some (.dict params)),
     [.get "transfer-method-configurations" (some (.dict params))])

/-- A transport that serves a fixed dataset on every GET: the response is
`{'data': raw[offset : offset + limit]}` when the query parameters carry
integer `offset` and `limit`, and the whole dataset otherwise. -/
def dsClient (raw : List PyVal) : ApiClient where
  doGet := fun _ params =>
    match params with
    | some (.dict kvs) =>
      match kvs.lookup "offset", kvs.lookup "limit" with
      | some (.int o), some (.int l) =>
        .ok (.dict [("data", .list ((raw.drop o.toNat).take l.toNat))])
      | _, _ => .ok (.dict [("data", .list raw)])
    | _ => .ok (.dict [("data", .list raw)])
  doPost := fun _ _ _ => .ok (.dict [])
  doPut := fun _ _ => .ok (.dict [])

/-- A transport whose every call succeeds with an empty mapping. -/
def okClient : ApiClient where
  doGet := fun _ _ => .ok (.dict [])
  doPost := fun _ _ _ => .ok (.dict [])
  doPut := fun _ _ => .ok (.dict [])

/-- A 250-element backing dataset of distinct payloads. -/
def raw250 : List PyVal :=
  (List.range 250).map fun i => PyVal.int i

lemma pageCalls_one (offset : Nat) : pageCalls offset 1 = [⟨offset, 100⟩] := rfl

lemma pageCalls_succ (offset k : Nat) :
    pageCalls offset (k + 1) = ⟨offset, 100⟩ :: pageCalls (offset + 100) k := by
  simp only [pageCalls, List.range_succ_eq_map, List.map_cons, List.map_map, Nat.mul_zero,
    Nat.add_zero]
  congr 1
  apply List.map_congr_left
  intro i _
  simp only [Function.comp_apply, PageCall.mk.injEq, and_true, Nat.succ_eq_add_one]
  ring

/-- Unfolds one iteration of the accumulator loop. -/
lemma getCollectionLoop_succ {α : Type} (func : PageCall → Except PyErr (List α))
    (maximum : Option Int) (fuel offset : Nat) (acc : List α) (calls : List PageCall) :
    getCollectionLoop func maximum (fuel + 1) offset acc calls
      = match func ⟨offset, 100⟩ with
        | .error e => some (.error e)
        | .ok response =>
          if response.length < 100 then
            some (.ok (acc ++ response, calls ++ [⟨offset, 100⟩]))
          else
            match maximum with
            | some m =>
              if m ≠ 0 ∧ m ≤ ((acc ++ response).length : Int) then
                some (.ok (acc ++ response, calls ++ [⟨offset, 100⟩]))
              else
                getCollectionLoop func maximum fuel (offset + 100) (acc ++ response)
                  (calls ++ [⟨offset, 100⟩])
            | none =>
              getCollectionLoop func maximum fuel (offset + 100) (acc ++ response)
                (calls ++ [⟨offset, 100⟩]) := rfl

/-- With no maximum, the loop over a dataset-backed fetch accumulates the
whole tail of the dataset, in `(length - offset) / 100 + 1` full-size page
fetches at offsets `offset, offset + 100, ...`. -/
lemma loop_none_eq {α : Type} (ds : List α) (fuel : Nat) :
    ∀ (offset : Nat) (acc : List α) (calls : List PageCall),
      ds.length - offset < 100 * fuel →
      getCollectionLoop (fun p => .ok (pageFetch ds p)) none fuel offset acc calls
        = some (.ok (acc ++ ds.drop offset,
            calls ++ pageCalls offset ((ds.length - offset) / 100 + 1))) := by
  induction fuel with
  | zero => intro offset acc calls h; omega
  | succ f ih =>
    intro offset acc calls h
    simp only [getCollectionLoop_succ]
    have hlen : (pageFetch ds ⟨offset, 100⟩).length = min 100 (ds.length - offset) := by
      simp [pageFetch]
    by_cases hshort : ds.length - offset < 100
    · rw [if_pos (by omega)]
      have htake : pageFetch ds ⟨offset, 100⟩ = ds.drop offset :=
        List.take_of_length_le (by simp; omega)
      rw [htake, Nat.div_eq_of_lt hshort, pageCalls_one]
    · rw [if_neg (by omega)]
      have hrec := ih (offset + 100) (acc ++ pageFetch ds (PageCall.mk offset 100))
        (calls ++ [PageCall.mk offset 100]) (by omega)
      rw [hrec]
      have hsplit : acc ++ pageFetch ds ⟨offset, 100⟩ ++ ds.drop (offset + 100)
          = acc ++ ds.drop offset := by
        rw [List.append_assoc]
        congr 1
        calc (ds.drop offset).take 100 ++ ds.drop (offset + 100)
            = (ds.drop offset).take 100 ++ (ds.drop offset).drop 100 := by
              rw [List.drop_drop]
          _ = ds.drop offset := List.take_append_drop 100 (ds.drop offset)
      have hdiv : (ds.length - offset) / 100 + 1
          = ((ds.length - (offset + 100)) / 100 + 1) + 1 := by
        have := Nat.div_eq_sub_div (a := ds.length - offset) (b := 100)
          (by norm_num) (by omega)
        have hsub : ds.length - offset - 100 = ds.length - (offset + 100) := by omega
        omega
      rw [hsplit, hdiv, pageCalls_succ offset]
      simp

/-- With a maximum of at least one, the loop over a dataset-backed fetch
returns some `k ≥ 1` full-size page fetches' worth of the dataset's tail,
and on exit either the dataset tail is exhausted or the accumulated results
have reached the maximum. -/
lemma loop_max_eq {α : Type} (ds : List α) (m : Int) (hm : 1 ≤ m) (fuel : Nat) :
    ∀ (offset : Nat) (acc : List α) (calls : List PageCall),
      ds.length - offset < 100 * fuel →
      ∃ k, 1 ≤ k ∧
        getCollectionLoop (fun p => .ok (pageFetch ds p)) (some m) fuel offset acc calls
          = some (.ok (acc ++ (ds.drop offset).take (100 * k), calls ++ pageCalls offset k))
        ∧ (ds.length - offset ≤ 100 * k
           ∨ m ≤ ((acc.length + ((ds.drop offset).take (100 * k)).length : Nat) : Int)) := by
  induction fuel with
  | zero => intro offset acc calls h; omega
  | succ f ih =>
    intro offset acc calls h
    simp only [getCollectionLoop_succ]
    have hlen : (pageFetch ds ⟨offset, 100⟩).length = min 100 (ds.length - offset) := by
      simp [pageFetch]
    by_cases hshort : ds.length - offset < 100
    · refine ⟨1, le_refl 1, ?_, Or.inl (by omega)⟩
      rw [if_pos (by omega), pageCalls_one]
      have : (100 : Nat) * 1 = 100 := by norm_num
      rw [this]
      rfl
    · rw [if_neg (by omega)]
      by_cases hmax : m ≠ 0 ∧ m ≤ (((acc ++ pageFetch ds ⟨offset, 100⟩).length : Nat) : Int)
      · refine ⟨1, le_refl 1, ?_, Or.inr ?_⟩
        · rw [if_pos hmax, pageCalls_one]
          have : (100 : Nat) * 1 = 100 := by norm_num
          rw [this]
          rfl
        · have := hmax.2
          simp only [List.length_append] at this
          simpa [pageFetch] using this
      · rw [if_neg hmax]
        obtain ⟨k, hk1, heq, hexit⟩ :=
          ih (offset + 100) (acc ++ pageFetch ds ⟨offset, 100⟩) (calls ++ [⟨offset, 100⟩])
            (by omega)
        refine ⟨k + 1, by omega, ?_, ?_⟩
        · rw [heq]
          have hsplit : acc ++ pageFetch ds ⟨offset, 100⟩
                ++ (ds.drop (offset + 100)).take (100 * k)
              = acc ++ (ds.drop offset).take (100 * (k + 1)) := by
            rw [List.append_assoc]
            congr 1
            have hmul : 100 * (k + 1) = 100 + 100 * k := by ring
            rw [hmul, List.take_add]
            congr 1
            rw [List.drop_drop]
          rw [hsplit, pageCalls_succ offset]
          simp
        · rcases hexit with hl | hr
          · exact Or.inl (by omega)
          · refine Or.inr ?_
            have e1 : (acc ++ pageFetch ds ⟨offset, 100⟩).length = acc.length + 100 := by
              simp only [List.length_append]
              omega
            have e2 : ((ds.drop offset).take (100 * (k + 1))).length
                = 100 + ((ds.drop (offset + 100)).take (100 * k)).length := by
              simp only [List.length_take, List.length_drop]
              omega
            rw [e1] at hr
            rw [e2]
            omega

/-- `_getCollection` over a dataset-backed fetch with a maximum of at least
one: the result is the first `maximum` items of the dataset's tail at the
starting offset, and the page calls are some `k ≥ 1` fixed-size pages. -/
lemma getCollection_max_eq {α : Type} (ds : List α) (o : Nat) (m : Int) (fuel : Nat)
    (hm : 1 ≤ m) (hfuel : ds.length - o < 100 * fuel) :
    ∃ k, 1 ≤ k ∧
      getCollection (fun p => .ok (pageFetch ds p))
          (some { offset := some o, maximum := some m }) fuel
        = some (.ok ((ds.drop o).take m.toNat, pageCalls o k)) := by
  obtain ⟨k, hk1, heq, hexit⟩ := loop_max_eq ds m hm fuel o [] [] hfuel
  refine ⟨k, hk1, ?_⟩
  simp only [List.nil_append] at heq hexit
  have hslice : pySlice (some m) ((ds.drop o).take (100 * k)) = (ds.drop o).take m.toNat := by
    have h0m : (0 : Int) ≤ m := by omega
    simp only [pySlice, if_pos h0m, List.take_take]
    by_cases hmk : m.toNat ≤ 100 * k
    · rw [min_eq_left hmk]
    · rcases hexit with hl | hr
      · rw [min_eq_right (by omega)]
        rw [List.take_of_length_le (by simp; omega),
          List.take_of_length_le (by simp; omega)]
      · exfalso
        simp only [List.length_nil, Nat.zero_add, List.length_take, List.length_drop] at hr
        omega
  have hmb : maxBelowOne (some m) = false := by
    simp only [maxBelowOne, decide_eq_false_iff_not]
    omega
  simp only [getCollection, Option.getD_some, hmb, Bool.false_eq_true, if_false]
  rw [heq]
  show some (Except.ok (pySlice (some m) ((ds.drop o).take (100 * k)), pageCalls o k)) = _
  rw [hslice]

/-- `_getCollection` over a dataset-backed fetch with no maximum: the result
is the whole tail of the dataset at the starting offset, in
`(length - offset) / 100 + 1` fixed-size page fetches. -/
lemma getCollection_none_eq {α : Type} (ds : List α) (o fuel : Nat)
    (hfuel : ds.length - o < 100 * fuel) :
    getCollection (fun p => .ok (pageFetch ds p))
        (some { offset := some o, maximum := none }) fuel
      = some (.ok (ds.drop o, pageCalls o ((ds.length - o) / 100 + 1))) := by
  have heq := loop_none_eq ds fuel o [] [] hfuel
  simp only [List.nil_append] at heq
  simp only [getCollection, maxBelowOne, Bool.false_eq_true, if_false, Option.getD_some]
  rw [heq]
  rfl

/-- C1, as stated, is false: with a backing dataset of `M = 50` items served
by the page-fetch function, starting offset `40` and maximum `30`, the
accumulator returns the `10` items `ds[40:50]` after a single fetch, not
`min(30, 50) = 30` items. -/
theorem claim1_counterexample :
    getCollection (fun p => .ok (pageFetch (List.range 50) p))
        (some { offset := some 40, maximum := some 30 }) 10
      = some (.ok ((List.range 50).drop 40, [⟨40, 100⟩]))
    ∧ ((List.range 50).drop 40).length = 10
    ∧ min ((30 : Int).toNat) (List.range 50).length = 30
    ∧ (10 : Nat) ≠ 30 :=
  ⟨rfl, rfl, rfl, by decide⟩

/-- C1 (amended): for every maximum `m ≥ 1`, starting offset and backing
dataset of size `M` served by the page-fetch function, `_getCollection`
returns exactly `min(m, M - offset)` items — the first `m` items of the
dataset from the offset on — and every fetch requests exactly 100 items at
offsets `offset, offset + 100, offset + 200, ...` (the claim's `min(m, M)`
holds only for offset 0; the tail below the offset is what is available). -/
theorem claim1_amended {α : Type} (ds : List α) (o : Nat) (m : Int) (fuel : Nat)
    (hm : 1 ≤ m) (hfuel : ds.length - o < 100 * fuel) :
    ∃ res calls,
      getCollection (fun p => .ok (pageFetch ds p))
          (some { offset := some o, maximum := some m }) fuel
        = some (.ok (res, calls))
      ∧ res = (ds.drop o).take m.toNat
      ∧ res.length = min m.toNat (ds.length - o)
      ∧ 1 ≤ calls.length
      ∧ ∀ i, (h : i < calls.length) → calls.get ⟨i, h⟩ = ⟨o + 100 * i, 100⟩ := by
  obtain ⟨k, hk1, heq⟩ := getCollection_max_eq ds o m fuel hm hfuel
  refine ⟨(ds.drop o).take m.toNat, pageCalls o k, heq, rfl, ?_, ?_, ?_⟩
  · simp [List.length_take, List.length_drop]
  · simp [pageCalls]
    omega
  · intro i h
    simp [pageCalls, List.get_eq_getElem, List.getElem_map, List.getElem_range]

/-- Witness for C1 (amended) at dataset `range 250`, offset 0, maximum 120. -/
theorem claim1_witness :
    ((1 : Int) ≤ 120 ∧ (List.range 250).length - 0 < 100 * 10)
    ∧ ∃ res calls,
        getCollection (fun p => .ok (pageFetch (List.range 250) p))
            (some { offset := some 0, maximum := some 120 }) 10
          = some (.ok (res, calls))
        ∧ res = ((List.range 250).drop 0).take ((120 : Int).toNat)
        ∧ res.length = min ((120 : Int).toNat) ((List.range 250).length - 0)
        ∧ 1 ≤ calls.length
        ∧ ∀ i, (h : i < calls.length) → calls.get ⟨i, h⟩ = ⟨0 + 100 * i, 100⟩ :=
  ⟨⟨by decide, by decide⟩,
   claim1_amended (List.range 250) 0 120 10 (by decide) (by decide)⟩

/-- C7: for every fetch function, starting offset and maximum below one
(zero or negative), `_getCollection` returns the empty collection with an
empty page-call trace — the fetch function is never invoked. -/
theorem claim7_maxBelowOne {α : Type} (func : PageCall → Except PyErr (List α))
    (o : Option Nat) (m : Int) (fuel : Nat) (hm : m < 1) :
    getCollection func (some { offset := o, maximum := some m }) fuel
      = some (.ok ([], [])) := by
  have hmb : maxBelowOne (some m) = true := by
    simp only [maxBelowOne, decide_eq_true_eq]
    omega
  simp only [getCollection, hmb, if_true]

/-- Witness for C7 at maximum 0 and at maximum -5. -/
theorem claim7_witness :
    ((0 : Int) < 1 ∧ (-5 : Int) < 1)
    ∧ getCollection (fun p => .ok (pageFetch (List.range 50) p))
        (some { offset := some 0, maximum := some 0 }) 10 = some (.ok ([], []))
    ∧ getCollection (fun p => .ok (pageFetch (List.range 50) p))
        (some { offset := some 0, maximum := some (-5) }) 10 = some (.ok ([], [])) :=
  ⟨⟨by decide, by decide⟩,
   claim7_maxBelowOne (fun p => .ok (pageFetch (List.range 50) p)) (some 0) 0 10 (by decide),
   claim7_maxBelowOne (fun p => .ok (pageFetch (List.range 50) p)) (some 0) (-5) 10 (by decide)⟩

/-- C8: with no maximum, `_getCollection` over a dataset-backed fetch keeps
fetching pages of 100 until a fetch returns fewer than 100 items — every
page fetch before the last returns exactly 100 items, the last returns
fewer — and returns the concatenation of all items seen, namely the whole
tail of the dataset at the starting offset. -/
theorem claim8_noMaximum {α : Type} (ds : List α) (o fuel : Nat)
    (hfuel : ds.length - o < 100 * fuel) :
    getCollection (fun p => .ok (pageFetch ds p))
        (some { offset := some o, maximum := none }) fuel
      = some (.ok (ds.drop o, pageCalls o ((ds.length - o) / 100 + 1)))
    ∧ (∀ i, i < (ds.length - o) / 100 → (pageFetch ds ⟨o + 100 * i, 100⟩).length = 100)
    ∧ (pageFetch ds ⟨o + 100 * ((ds.length - o) / 100), 100⟩).length < 100 := by
  refine ⟨getCollection_none_eq ds o fuel hfuel, ?_, ?_⟩
  · intro i hi
    have hdm := Nat.div_add_mod (ds.length - o) 100
    have hmod : (ds.length - o) % 100 < 100 := Nat.mod_lt _ (by norm_num)
    simp only [pageFetch, List.length_take, List.length_drop]
    omega
  · have hdm := Nat.div_add_mod (ds.length - o) 100
    have hmod : (ds.length - o) % 100 < 100 := Nat.mod_lt _ (by norm_num)
    simp only [pageFetch, List.length_take, List.length_drop]
    omega

/-- Witness for C8 at a 50-item dataset: all 50 items after exactly one
fetch. -/
theorem claim8_witness :
    ((List.range 50).length - 0 < 100 * 1)
    ∧ getCollection (fun p => .ok (pageFetch (List.range 50) p))
        (some { offset := some 0, maximum := none }) 1
      = some (.ok ((List.range 50).drop 0,
          pageCalls 0 (((List.range 50).length - 0) / 100 + 1)))
    ∧ pageCalls 0 (((List.range 50).length - 0) / 100 + 1) = [⟨0, 100⟩]
    ∧ ((List.range 50).drop 0).length = 50 :=
  ⟨by decide, (claim8_noMaximum (List.range 50) 0 1 (by decide)).1, by decide, by decide⟩

/-- C2, as stated, is false: for a 250-item dataset, `getUsers({'offset': 0,
'maximum': 120})` does return 120 User resources, but the accumulator issues
exactly two page fetches (offsets 0 and 100) — after the second fetch the
200 accumulated results already reach the maximum of 120 and the loop
breaks — not the claimed three fetches at offsets 0, 100 and 200. -/
theorem claim2_counterexample :
    (getUsers (dsClient raw250) (some { offset := some 0, maximum := some 120 }) 10).map
        (Except.map fun rc => (rc.1.length, rc.2))
      = some (.ok (120, [⟨0, 100⟩, ⟨100, 100⟩]))
    ∧ [(⟨0, 100⟩ : PageCall), ⟨100, 100⟩].length ≠ 3 :=
  ⟨rfl, by decide⟩

/-- C2 (amended): for a 250-item dataset, `getUsers({'offset': 0, 'maximum':
120})` returns exactly 120 User resources — the first 120 dataset entries
wrapped as `User` — and the accumulator issues exactly two page fetches, at
offsets 0 and 100, the 200 accumulated results being truncated to the
120 cap. -/
theorem claim2_amended :
    getUsers (dsClient raw250) (some { offset := some 0, maximum := some 120 }) 10
      = some (.ok ((raw250.take 120).map fun v => { kind := "User", body := v },
          [⟨0, 100⟩, ⟨100, 100⟩]))
    ∧ ((raw250.take 120).map fun v => ({ kind := "User", body := v } : Resource)).length
        = 120
    ∧ raw250.length = 250 :=
  ⟨rfl, rfl, rfl⟩

/-- C3 is right about the intent but the code is broken for the bank-account
family (and likewise prepaid cards and paper checks): the accumulator calls
its fetch function with the `{'offset', 'limit'}` page dictionary as the
single positional argument, which binds to `listBankAccounts`' first
parameter `userToken` instead of its `params`.  The non-empty dictionary
passes the truthiness check and then `os.path.join` raises `TypeError`, for
every transport and any fuel — `getBankAccounts` can never deliver the
composition the spec (and its own docstring) promise. -/
theorem claim3_code_bug :
    (∀ (client : ApiClient) (fuel : Nat),
      getBankAccounts client (some { offset := some 0, maximum := some 1 }) (fuel + 1)
        = some (.error (.typeError "join: expected str instance")))
    ∧ (∀ (client : ApiClient) (p : PageCall),
        (listBankAccounts client (some (pageDict p)) none).1
          = .error (.typeError "join: expected str instance")) :=
  ⟨fun _ _ => rfl, fun _ _ => rfl⟩

/-- C4 is right about the intent but the code is broken: `Payment` is not
among the names imported at the top of `api.py` (lines 9-15), so for every
successful transport response `createPayment`, `retrievePayment` and a
non-empty `listPayments` raise `NameError` at the wrapping step instead of
returning Payment resources. -/
theorem claim4_code_bug :
    ("Payment" ∉ importedResourceNames)
    ∧ (∀ (r : PyVal) (pt : PyVal),
        (createPayment
            { doGet := fun _ _ => .ok r, doPost := fun _ _ _ => .ok r,
              doPut := fun _ _ => .ok r } pt (some [("amount", .str "10")])).1
          = .error (.nameError "Payment"))
    ∧ (∀ (r : PyVal),
        (retrievePayment
            { doGet := fun _ _ => .ok r, doPost := fun _ _ _ => .ok r,
              doPut := fun _ _ => .ok r } (some "pmt-token")).1
          = .error (.nameError "Payment"))
    ∧ (∀ (x : PyVal),
        (listPayments
            { doGet := fun _ _ => .ok (.dict [("data", .list [x])]),
              doPost := fun _ _ _ => .ok (.dict []),
              doPut := fun _ _ => .ok (.dict []) } none).1
          = .error (.nameError "Payment")) :=
  ⟨by decide, fun _ _ => rfl, fun _ => rfl, fun _ => rfl⟩

/-- C10: calling any `get*` convenience operation with `params` omitted or
`None` fails with the raw `AttributeError` from `params.get('offset')`,
for every fetch function, transport and fuel — before any fetch — and that
failure is not the library's `HyperwalletException`. -/
theorem claim10_paramsNone (α : Type) (func : PageCall → Except PyErr (List α))
    (fuel : Nat) (client : ApiClient) :
    getCollection func none fuel
      = some (.error (.attributeError "NoneType object has no attribute get"))
    ∧ getUsers client none fuel
      = some (.error (.attributeError "NoneType object has no attribute get"))
    ∧ getBankAccounts client none fuel
      = some (.error (.attributeError "NoneType object has no attribute get"))
    ∧ getPayments client none fuel
      = some (.error (.attributeError "NoneType object has no attribute get"))
    ∧ ∀ msg, PyErr.attributeError "NoneType object has no attribute get"
        ≠ PyErr.hwException msg :=
  ⟨rfl, rfl, rfl, rfl, fun _ h => PyErr.noConfusion h⟩

/-- C5: every modelled facade operation with a required identifier or
required payload, called with that argument `None` or empty, raises the
`HyperwalletException` naming the missing argument, with an empty transport
trace — no `doGet`/`doPost`/`doPut` is invoked; in particular
`retrieveUser(None)` raises without any transport call. -/
theorem claim5_missingArgs (client : ApiClient) (bt0 : Option String)
    (d0 : Option (List (String × PyVal))) (u bt : String)
    (hu : u ≠ "") (hbt : bt ≠ "") (pt : PyVal) :
    retrieveUser client none = (.error (.hwException "userToken is required"), [])
    ∧ retrieveUser client (some "")
        = (.error (.hwException "userToken is required"), [])
    ∧ updateBankAccount client none bt0 d0
        = (.error (.hwException "userToken is required"), [])
    ∧ updateBankAccount client (some "") bt0 d0
        = (.error (.hwException "userToken is required"), [])
    ∧ updateBankAccount client (some u) none d0
        = (.error (.hwException "bankAccountToken is required"), [])
    ∧ updateBankAccount client (some u) (some "") d0
        = (.error (.hwException "bankAccountToken is required"), [])
    ∧ updateBankAccount client (some u) (some bt) none
        = (.error (.hwException "data is required"), [])
    ∧ updateBankAccount client (some u) (some bt) (some [])
        = (.error (.hwException "data is required"), [])
    ∧ createUser client pt none = (.error (.hwException "data is required"), [])
    ∧ createUser client pt (some []) = (.error (.hwException "data is required"), [])
    ∧ createPayment client pt none = (.error (.hwException "data is required"), [])
    ∧ createPayment client pt (some []) = (.error (.hwException "data is required"), [])
    ∧ retrievePayment client none
        = (.error (.hwException "paymentToken is required"), [])
    ∧ retrievePayment client (some "")
        = (.error (.hwException "paymentToken is required"), [])
    ∧ listBankAccounts client none none
        = (.error (.hwException "userToken is required"), [])
    ∧ listBankAccounts client (some (.str "")) none
        = (.error (.hwException "userToken is required"), []) := by
  refine ⟨rfl, rfl, rfl, rfl, ?_, ?_, ?_, ?_, rfl, rfl, rfl, rfl, rfl, rfl, rfl, rfl⟩
  all_goals
    simp [updateBankAccount, strFalsy, dictFalsy, String.isEmpty_iff, hu, hbt]

/-- Witness for C5 at a concrete client and concrete tokens. -/
theorem claim5_witness :
    ("usr-token" ≠ "" ∧ "trm-token" ≠ "")
    ∧ retrieveUser okClient none = (.error (.hwException "userToken is required"), [])
    ∧ updateBankAccount okClient (some "usr-token") (some "") none
        = (.error (.hwException "bankAccountToken is required"), []) :=
  ⟨⟨by decide, by decide⟩,
   (claim5_missingArgs okClient none none "usr-token" "trm-token" (by decide) (by decide)
      (.str "prg")).1,
   (claim5_missingArgs okClient none none "usr-token" "trm-token" (by decide) (by decide)
      (.str "prg")).2.2.2.2.2.1⟩

lemma lookup_append_single_of_none {β : Type} (k : String) (v : β)
    (d : List (String × β)) (hd : d.lookup k = none) :
    (d ++ [(k, v)]).lookup k = some v := by
  induction d with
  | nil => simp [List.lookup]
  | cons p tl ih =>
    rw [List.lookup_cons] at hd
    cases hk : (k == p.1) with
    | true =>
      exfalso
      rcases p with ⟨k1, v1⟩
      simp only [hk] at hd
      exact Option.noConfusion hd
    | false =>
      rcases p with ⟨k1, v1⟩
      simp only [hk] at hd
      rw [List.cons_append, List.lookup_cons]
      simp only [hk]
      exact ih hd

/-- C6: `_addProgramToken` never overwrites a caller-supplied `programToken`
(the check is key presence, values are ignored), adds the configured token
when the key is absent, and is idempotent on every dictionary payload. -/
theorem claim6_programToken (pt : PyVal) (kvs kvs2 : List (String × PyVal))
    (h1 : (kvs.lookup "programToken").isSome = true)
    (h2 : (kvs2.lookup "programToken").isSome = false) :
    addProgramToken pt (.dict kvs) = .ok (.dict kvs)
    ∧ addProgramToken pt (.dict kvs2)
        = .ok (.dict (kvs2 ++ [("programToken", pt)]))
    ∧ ∀ d : List (String × PyVal),
        (addProgramToken pt (.dict d)).bind (addProgramToken pt)
          = addProgramToken pt (.dict d) := by
  refine ⟨by simp [addProgramToken, h1], by simp [addProgramToken, h2], ?_⟩
  intro d
  by_cases hd : (d.lookup "programToken").isSome
  · simp [addProgramToken, hd, Except.bind]
  · have hnone : d.lookup "programToken" = none := by
      cases hl : d.lookup "programToken" with
      | none => rfl
      | some w => rw [hl] at hd; simp at hd
    have hk := lookup_append_single_of_none "programToken" pt d hnone
    simp [addProgramToken, hnone, Except.bind, hk]

/-- Witness for C6 at the spec's scenario payloads. -/
theorem claim6_witness :
    (([("programToken", PyVal.str "prg-2")].lookup "programToken").isSome = true
     ∧ (([("profileType", PyVal.str "INDIVIDUAL")]
          : List (String × PyVal)).lookup "programToken").isSome = false)
    ∧ addProgramToken (.str "prg-1") (.dict [("programToken", .str "prg-2")])
        = .ok (.dict [("programToken", .str "prg-2")])
    ∧ addProgramToken (.str "prg-1") (.dict [("profileType", .str "INDIVIDUAL")])
        = .ok (.dict ([("profileType", PyVal.str "INDIVIDUAL")]
            ++ [("programToken", PyVal.str "prg-1")]))
    ∧ ∀ d : List (String × PyVal),
        (addProgramToken (.str "prg-1") (.dict d)).bind (addProgramToken (.str "prg-1"))
          = addProgramToken (.str "prg-1") (.dict d) := by
  have h := claim6_programToken (.str "prg-1") [("programToken", .str "prg-2")]
    [("profileType", .str "INDIVIDUAL")] rfl rfl
  exact ⟨⟨rfl, rfl⟩, h.1, h.2.1, h.2.2⟩

/-- C9, as stated, is false: the transfer-method-configuration operations
check required query-parameter keys by presence only, so a required key
present with an empty value does not raise — the transport is called. -/
theorem claim9_counterexample :
    listTransferMethodConfigurations okClient [("userToken", .str "")]
      = (.ok (.dict []),
         [.get "transfer-method-configurations"
            (some (.dict [("userToken", .str "")]))])
    ∧ (listTransferMethodConfigurations okClient [("userToken", .str "")]).1
        ≠ .error (.hwException "userToken is required")
    ∧ (listTransferMethodConfigurations okClient [("userToken", .str "")]).2.length = 1
    ∧ retrieveTransferMethodConfiguration okClient
        [("userToken", .str ""), ("country", .str ""), ("currency", .str ""),
         ("type", .str ""), ("profileType", .str "")]
      = (.ok (.dict []),
         [.get "transfer-method-configurations"
            (some (.dict [("userToken", .str ""), ("country", .str ""),
              ("currency", .str ""), ("type", .str ""), ("profileType", .str "")]))]) :=
  ⟨rfl, fun h => Except.noConfusion h, rfl, rfl⟩

/-- C9 (amended): the required query-parameter keys are checked by presence
only, in a fixed order; a key that is absent raises the
`HyperwalletException` naming it with no transport call, and when all
required keys are present (regardless of their values, empty included) the
operation issues the single `doGet`. -/
theorem claim9_amended (client : ApiClient)
    (p0 p1 q0 q1 q2 q3 q4 q5 : List (String × PyVal))
    (hp0 : (p0.lookup "userToken").isNone = true)
    (hp1 : (p1.lookup "userToken").isNone = false)
    (hq0 : (q0.lookup "userToken").isNone = true)
    (hq1a : (q1.lookup "userToken").isNone = false)
    (hq1b : (q1.lookup "country").isNone = true)
    (hq2a : (q2.lookup "userToken").isNone = false)
    (hq2b : (q2.lookup "country").isNone = false)
    (hq2c : (q2.lookup "currency").isNone = true)
    (hq3a : (q3.lookup "userToken").isNone = false)
    (hq3b : (q3.lookup "country").isNone = false)
    (hq3c : (q3.lookup "currency").isNone = false)
    (hq3d : (q3.lookup "type").isNone = true)
    (hq4a : (q4.lookup "userToken").isNone = false)
    (hq4b : (q4.lookup "country").isNone = false)
    (hq4c : (q4.lookup "currency").isNone = false)
    (hq4d : (q4.lookup "type").isNone = false)
    (hq4e : (q4.lookup "profileType").isNone = true)
    (hq5a : (q5.lookup "userToken").isNone = false)
    (hq5b : (q5.lookup "country").isNone = false)
    (hq5c : (q5.lookup "currency").isNone = false)
    (hq5d : (q5.lookup "type").isNone = false)
    (hq5e : (q5.lookup "profileType").isNone = false) :
    listTransferMethodConfigurations client p0
      = (.error (.hwException "userToken is required"), [])
    ∧ listTransferMethodConfigurations client p1
        = (client.doGet "transfer-method-configurations" (some (.dict p1)),
           [.get "transfer-method-configurations" (some (.dict p1))])
    ∧ retrieveTransferMethodConfiguration client q0
        = (.error (.hwException "userToken is required"), [])
    ∧ retrieveTransferMethodConfiguration client q1
        = (.error (.hwException "country is required"), [])
    ∧ retrieveTransferMethodConfiguration client q2
        = (.error (.hwException "currency is required"), [])
    ∧ retrieveTransferMethodConfiguration client q3
        = (.error (.hwException "type is required"), [])
    ∧ retrieveTransferMethodConfiguration client q4
        = (.error (.hwException "profileType is required"), [])
    ∧ retrieveTransferMethodConfiguration client q5
        = (client.doGet "transfer-method-configurations" (some (.dict q5)),
           [.get "transfer-method-configurations" (some (.dict q5))]) := by
  refine ⟨?_, ?_, ?_, ?_, ?_, ?_, ?_, ?_⟩
  · simp [listTransferMethodConfigurations, hp0]
  · simp [listTransferMethodConfigurations, hp1]
  · simp [retrieveTransferMethodConfiguration, hq0]
  · simp [retrieveTransferMethodConfiguration, hq1a, hq1b]
  · simp [retrieveTransferMethodConfiguration, hq2a, hq2b, hq2c]
  · simp [retrieveTransferMethodConfiguration, hq3a, hq3b, hq3c, hq3d]
  · simp [retrieveTransferMethodConfiguration, hq4a, hq4b, hq4c, hq4d, hq4e]
  · simp [retrieveTransferMethodConfiguration, hq5a, hq5b, hq5c, hq5d, hq5e]

/-- Witness for C9 (amended) at concrete parameter dictionaries. -/
theorem claim9_witness :
    ((([] : List (String × PyVal)).lookup "userToken").isNone = true
     ∧ (([("userToken", PyVal.str "usr")]
          : List (String × PyVal)).lookup "userToken").isNone = false)
    ∧ listTransferMethodConfigurations okClient []
        = (.error (.hwException "userToken is required"), [])
    ∧ retrieveTransferMethodConfiguration okClient [("userToken", .str "usr")]
        = (.error (.hwException "country is required"), []) := by
  have h := claim9_amended okClient [] [("userToken", .str "usr")] []
    [("userToken", .str "usr")] [("userToken", .str "usr"), ("country", .str "US")]
    [("userToken", .str "usr"), ("country", .str "US"), ("currency", .str "USD")]
    [("userToken", .str "usr"), ("country", .str "US"), ("currency", .str "USD"),
     ("type", .str "BANK_ACCOUNT")]
    [("userToken", .str "usr"), ("country", .str "US"), ("currency", .str "USD"),
     ("type", .str "BANK_ACCOUNT"), ("profileType", .str "INDIVIDUAL")]
    rfl rfl rfl rfl rfl rfl rfl rfl rfl rfl rfl rfl rfl rfl rfl rfl rfl rfl rfl rfl rfl rfl
  exact ⟨⟨rfl, rfl⟩, h.1, h.2.2.2.1⟩

end HyperwalletApi
